import Mathlib

/-
  Shallow embedding of the coverage-resolution pipeline of the
  network_coverage repository (FastAPI application).

  Embedded modules:
  - app/domain/entities.py        : Operator, Coverage, Location, MobileSite
  - app/application/schemas.py    : CoverageInfo, request / response items
  - app/application/use_cases.py  : FindNearbySitesByAddressUseCase
  - app/infrastructure/repositories.py : SQLAlchemyMobileSiteRepository
  - app/infrastructure/geocode_service.py : GeocodingService
  - app/routes.py                 : the /api/v1/nearby endpoint

  Numeric values (coordinates, distances) are modelled as rationals.
  External effects (the geocoding HTTP provider, the PostGIS database
  session) are modelled as explicit oracle arguments; Python exceptions
  are modelled with Except.
-/

namespace NetworkCoverage

/-- Python exceptions that can arise inside the coverage loop of
FindNearbySitesByAddressUseCase. attributeError models the AttributeError
raised by an attribute access that the object does not have. -/
inductive PyExc where
  | attributeError
deriving DecidableEq

/-- RepositoryError from app/domain/exceptions.py, raised by the
SQLAlchemy repository on storage faults. -/
inductive RepositoryError where
  | mk
deriving DecidableEq

/-- An underlying SQLAlchemy / transport fault inside the database session
(OperationalError, ProgrammingError, SQLAlchemyError, or any other
exception caught by the repository). -/
inductive DbFault where
  | mk
deriving DecidableEq

/-- Operator enumeration from app/domain/entities.py. -/
inductive Operator where
  | orange
  | sfr
  | bouygues
  | free
deriving DecidableEq

/-- The value of each Operator enum member (a string in the source). -/
def Operator.value : Operator → String
  | .orange => "Orange"
  | .sfr => "SFR"
  | .bouygues => "Bouygues"
  | .free => "Free"

/-- Python site.operator.value.lower(): the lowercased value string of
each member of the closed Operator enumeration. -/
def Operator.value_lower : Operator → String
  | .orange => "orange"
  | .sfr => "sfr"
  | .bouygues => "bouygues"
  | .free => "free"

/-- Coverage dataclass from app/domain/entities.py. -/
structure Coverage where
  has_2g : Bool
  has_3g : Bool
  has_4g : Bool
deriving DecidableEq

/-- Location dataclass from app/domain/entities.py: its only declared
fields are x (longitude) and y (latitude). -/
structure Location where
  x : ℚ
  y : ℚ
deriving DecidableEq

/-- MobileSite dataclass from app/domain/entities.py. -/
structure MobileSite where
  operator : Operator
  location : Location
  coverage : Coverage
deriving DecidableEq

/-- Python attribute access site.location.latitude as written at
app/application/use_cases.py line 223. The Location dataclass declares
only the fields x and y, so this access raises AttributeError. -/
def Location.attr_latitude (_ : Location) : Except PyExc ℚ :=
  .error .attributeError

/-- Python attribute access site.location.longitude as written at
app/application/use_cases.py line 223; raises AttributeError like
Location.attr_latitude. -/
def Location.attr_longitude (_ : Location) : Except PyExc ℚ :=
  .error .attributeError

/-- CoverageInfo pydantic model from app/application/schemas.py. -/
structure CoverageInfo where
  has_2g : Bool
  has_3g : Bool
  has_4g : Bool
deriving DecidableEq

/-- NearbyAddressRequestItem from app/application/schemas.py. -/
structure NearbyAddressRequestItem where
  id : String
  address : String
deriving DecidableEq

/-- NearbyAddressResponseItem from app/application/schemas.py. -/
structure NearbyAddressResponseItem where
  id : String
  orange : CoverageInfo
  SFR : CoverageInfo
  bouygues : CoverageInfo
  free : CoverageInfo
deriving DecidableEq

/-- Coordinate dictionary returned by the geocoding service for one
address: keys latitude and longitude. -/
structure Coordinates where
  latitude : ℚ
  longitude : ℚ
deriving DecidableEq

/-- Technology radius for 2G from TECHNOLOGY_RADII in use_cases.py. -/
def TECHNOLOGY_RADII_2G : ℚ := 30
/-- Technology radius for 3G from TECHNOLOGY_RADII in use_cases.py. -/
def TECHNOLOGY_RADII_3G : ℚ := 5
/-- Technology radius for 4G from TECHNOLOGY_RADII in use_cases.py. -/
def TECHNOLOGY_RADII_4G : ℚ := 10
/-- Constant SEARCH_RADIUS_KM from use_cases.py: the longest technology
radius. -/
def SEARCH_RADIUS_KM : ℚ := 30

/-- The all-false CoverageInfo value used throughout use_cases.py. -/
def empty_coverage : CoverageInfo := ⟨false, false, false⟩

/-- The coverage_by_operator dictionary of _find_coverage_for_location,
with its four fixed keys orange, sfr, bouygues, free. -/
structure CoverageByOperator where
  orange : CoverageInfo
  sfr : CoverageInfo
  bouygues : CoverageInfo
  free : CoverageInfo
deriving DecidableEq

/-- Dictionary lookup coverage_by_operator[name]; none models a missing
key (the membership test in the source). -/
def CoverageByOperator.get? (c : CoverageByOperator) (k : String) : Option CoverageInfo :=
  if k = "orange" then some c.orange
  else if k = "sfr" then some c.sfr
  else if k = "bouygues" then some c.bouygues
  else if k = "free" then some c.free
  else none

/-- Dictionary update coverage_by_operator[name] = v. -/
def CoverageByOperator.set (c : CoverageByOperator) (k : String) (v : CoverageInfo) : CoverageByOperator :=
  if k = "orange" then { c with orange := v }
  else if k = "sfr" then { c with sfr := v }
  else if k = "bouygues" then { c with bouygues := v }
  else if k = "free" then { c with free := v }
  else c

/-- The initial all-false coverage_by_operator dictionary. -/
def initial_coverage_by_operator : CoverageByOperator :=
  ⟨empty_coverage, empty_coverage, empty_coverage, empty_coverage⟩

/-- One iteration of the site loop in _find_coverage_for_location
(use_cases.py lines 218-232): compute operator_name, look it up in the
dictionary, then read site.location.latitude and site.location.longitude
(which raises AttributeError), compute the distance with the injected
distance function, and set each technology flag the site supports within
its radius. -/
def site_step (dist : ℚ → ℚ → ℚ → ℚ → ℚ) (latitude longitude : ℚ)
    (acc : CoverageByOperator) (site : MobileSite) : Except PyExc CoverageByOperator :=
  let operator_name := site.operator.value_lower
  match acc.get? operator_name with
  | none => .ok acc
  | some cov =>
    match site.location.attr_latitude with
    | .error e => .error e
    | .ok site_latitude =>
      match site.location.attr_longitude with
      | .error e => .error e
      | .ok site_longitude =>
        let distance_km := dist latitude longitude site_latitude site_longitude
        let cov := { cov with
          has_2g := if site.coverage.has_2g ∧ distance_km ≤ TECHNOLOGY_RADII_2G then true else cov.has_2g }
        let cov := { cov with
          has_3g := if site.coverage.has_3g ∧ distance_km ≤ TECHNOLOGY_RADII_3G then true else cov.has_3g }
        let cov := { cov with
          has_4g := if site.coverage.has_4g ∧ distance_km ≤ TECHNOLOGY_RADII_4G then true else cov.has_4g }
        .ok (acc.set operator_name cov)

/-- The for-loop over the sites returned by the store, propagating any
exception raised by an iteration. -/
def coverage_loop (dist : ℚ → ℚ → ℚ → ℚ → ℚ) (latitude longitude : ℚ) :
    CoverageByOperator → List MobileSite → Except PyExc CoverageByOperator
  | acc, [] => .ok acc
  | acc, site :: rest =>
    match site_step dist latitude longitude acc site with
    | .error e => .error e
    | .ok acc' => coverage_loop dist latitude longitude acc' rest

/-- FindNearbySitesByAddressUseCase._find_coverage_for_location.
store_result is the outcome of the single 30 km store query; a
RepositoryError from the store, or any exception raised inside the site
loop, is caught and degrades the result to the all-false dictionary. -/
def find_coverage_for_location (dist : ℚ → ℚ → ℚ → ℚ → ℚ)
    (store_result : Except RepositoryError (List MobileSite))
    (latitude longitude : ℚ) : CoverageByOperator :=
  match store_result with
  | .error _ => initial_coverage_by_operator
  | .ok sites =>
    match coverage_loop dist latitude longitude initial_coverage_by_operator sites with
    | .ok cov => cov
    | .error _ => initial_coverage_by_operator

/-- The all-false NearbyAddressResponseItem built for degraded items. -/
def empty_response (id : String) : NearbyAddressResponseItem :=
  ⟨id, empty_coverage, empty_coverage, empty_coverage, empty_coverage⟩

/-- FindNearbySitesByAddressUseCase._process_address_with_coords: resolve
coverage for one geocoded address and shape the response item. The store
oracle maps the query coordinates to the outcome of find_nearby at those
coordinates with radius SEARCH_RADIUS_KM. -/
def process_address_with_coords (dist : ℚ → ℚ → ℚ → ℚ → ℚ)
    (store : Coordinates → Except RepositoryError (List MobileSite))
    (address_id : String) (coords : Coordinates) : NearbyAddressResponseItem :=
  let cov := find_coverage_for_location dist (store coords) coords.latitude coords.longitude
  ⟨address_id, cov.orange, cov.sfr, cov.bouygues, cov.free⟩

/-- FindNearbySitesByAddressUseCase._geocode_addresses_safe: a failing
geocoding call is caught and replaced by the empty coordinate map. -/
def geocode_addresses_safe (g : Except Unit (List (String × Coordinates))) :
    List (String × Coordinates) :=
  match g with
  | .error _ => []
  | .ok m => m

/-- Python dict assignment m[k] = v on an association list: replace the
value in place if the key exists, else append. -/
def dict_set {α : Type} : List (String × α) → String → α → List (String × α)
  | [], k, v => [(k, v)]
  | (k', v') :: rest, k, v =>
    if k' = k then (k, v) :: rest else (k', v') :: dict_set rest k v

/-- Python dict built from a list of key-value pairs (later pairs update
earlier keys in place), as the addresses_dict comprehension does. -/
def dict_of_list {α : Type} (ps : List (String × α)) : List (String × α) :=
  ps.foldl (fun m p => dict_set m p.1 p.2) []

/-- Python dict.get on an association list with unique keys. -/
def dict_get {α : Type} : List (String × α) → String → Option α
  | [], _ => none
  | (k, v) :: rest, key => if k = key then some v else dict_get rest key

/-- The coordinate map execute works with: addresses_dict is built from
the batch, handed to the injected geocoding service (an oracle from the
address dictionary to a result or a raised error), and guarded by
_geocode_addresses_safe. -/
def execute_coordinates
    (svc : List (String × String) → Except Unit (List (String × Coordinates)))
    (addresses : List NearbyAddressRequestItem) : List (String × Coordinates) :=
  geocode_addresses_safe (svc (dict_of_list (addresses.map fun a => (a.id, a.address))))

/-- FindNearbySitesByAddressUseCase.execute. orch_fault models the outer
except branch (use_cases.py lines 116-130): an unexpected exception during
batch orchestration returns the all-empty result list for every input
item. Otherwise each input item is processed in order: an id missing from
the coordinate map yields the empty response; a geocoded id is resolved
through the store. -/
def execute (dist : ℚ → ℚ → ℚ → ℚ → ℚ)
    (svc : List (String × String) → Except Unit (List (String × Coordinates)))
    (store : Coordinates → Except RepositoryError (List MobileSite))
    (orch_fault : Bool)
    (addresses : List NearbyAddressRequestItem) : List NearbyAddressResponseItem :=
  if orch_fault then
    addresses.map (fun a => empty_response a.id)
  else
    addresses.map (fun item =>
      match dict_get (execute_coordinates svc addresses) item.id with
      | some coords => process_address_with_coords dist store item.id coords
      | none => empty_response item.id)

/-- MobileSiteModel from app/infrastructure/models.py: the raw database
record the store yields (id column omitted; it plays no role here). -/
structure MobileSiteModel where
  operator : String
  x : ℚ
  y : ℚ
  has_2g : Bool
  has_3g : Bool
  has_4g : Bool
deriving DecidableEq

/-- The operator_map lookup inside _to_entity
(app/infrastructure/repositories.py lines 154-160). -/
def operator_map_get : String → Option Operator
  | "Orange" => some .orange
  | "SFR" => some .sfr
  | "Bouygues" => some .bouygues
  | "Free" => some .free
  | _ => none

/-- SQLAlchemyMobileSiteRepository._to_entity: convert a database model to
a domain entity; an unknown operator string raises ValueError (modelled as
the error branch). -/
def to_entity (m : MobileSiteModel) : Except Unit MobileSite :=
  match operator_map_get m.operator with
  | none => .error ()
  | some op => .ok ⟨op, ⟨m.x, m.y⟩, ⟨m.has_2g, m.has_3g, m.has_4g⟩⟩

/-- SQLAlchemyMobileSiteRepository.find_nearby. db_result is the outcome
of the ST_DWithin radius query: the raw records the store yields within
the radius, or an underlying storage fault. A fault is re-raised as
RepositoryError; on success each record is converted with _to_entity, and
a record whose conversion raises is skipped (lines 112-121: the except
block logs and continues with the others). -/
def find_nearby (db_result : Except DbFault (List MobileSiteModel)) :
    Except RepositoryError (List MobileSite) :=
  match db_result with
  | .error _ => .error .mk
  | .ok models => .ok (models.filterMap (fun m => (to_entity m).toOption))

/-- The MobileSiteModel built from a domain entity inside save_many
(repositories.py lines 35-45); the geom column is derived from x and y and
is not modelled separately. -/
def to_model (site : MobileSite) : MobileSiteModel :=
  ⟨site.operator.value, site.location.x, site.location.y,
   site.coverage.has_2g, site.coverage.has_3g, site.coverage.has_4g⟩

/-- SQLAlchemyMobileSiteRepository.save_many over an explicit session
state (the list of committed records). commit is the outcome of
session.commit() after add_all. On success the batch is appended to the
state and the entities converted back from the models are returned; on
any storage fault the session is rolled back (state unchanged) and
RepositoryError is raised. A conversion failure after the commit would
also raise RepositoryError, with the rollback unable to undo the commit. -/
def save_many (commit : Except DbFault Unit) (db : List MobileSiteModel)
    (sites : List MobileSite) :
    Except RepositoryError (List MobileSite) × List MobileSiteModel :=
  let models := sites.map to_model
  match commit with
  | .error _ => (.error .mk, db)
  | .ok _ =>
    match models.mapM to_entity with
    | .ok entities => (.ok entities, db ++ models)
    | .error _ => (.error .mk, db ++ models)

/-- One feature of the geocoder provider response: the geometry
coordinates array and the properties score. -/
structure GeoFeature where
  coordinates : List ℚ
  score : ℚ
deriving DecidableEq

/-- The parsed JSON body of one geocoder provider response: its features
array. -/
structure GeoResponse where
  features : List GeoFeature
deriving DecidableEq

/-- GeocodingService._geocode_single_address for one address, given the
outcome of the outbound HTTP lookup (transport error, bad status, or bad
JSON collapse into the error branch). Every exception inside the body is
caught by the outer except and turned into none. A response with no
features, or whose first feature has fewer than two coordinate
components, yields none; otherwise the first two components are taken as
longitude then latitude, with the score read but not filtered on. -/
def geocode_single_address (response : Except Unit GeoResponse) : Option Coordinates :=
  match response with
  | .error _ => none
  | .ok data =>
    match data.features with
    | [] => none
    | feature :: _ =>
      match feature.coordinates with
      | longitude :: latitude :: _ => some ⟨latitude, longitude⟩
      | _ => none

/-- GeocodingService.geocode_addresses: gather the per-address lookups
(responses is the oracle giving each id its provider response outcome);
per-address failures and not-found lookups are skipped, every resolved
address contributes its coordinates under its id. -/
def geocode_addresses (responses : String → Except Unit GeoResponse)
    (addresses : List (String × String)) : List (String × Coordinates) :=
  addresses.filterMap (fun p => (geocode_single_address (responses p.1)).map (fun c => (p.1, c)))

/-- The find_nearby_sites_by_address route handler (app/routes.py lines
47-66): an empty address list is rejected with HTTP 400 before the use
case executes; otherwise the use case result is returned. -/
def find_nearby_sites_by_address (dist : ℚ → ℚ → ℚ → ℚ → ℚ)
    (svc : List (String × String) → Except Unit (List (String × Coordinates)))
    (store : Coordinates → Except RepositoryError (List MobileSite))
    (orch_fault : Bool)
    (addresses : List NearbyAddressRequestItem) :
    Except Nat (List NearbyAddressResponseItem) :=
  if addresses.isEmpty then .error 400
  else .ok (execute dist svc store orch_fault addresses)

/-
  Helper lemmas shared by the claim theorems.
-/

/-- The per-item branch of execute always produces a response carrying the
item's own id. -/
lemma execute_item_id (dist : ℚ → ℚ → ℚ → ℚ → ℚ)
    (store : Coordinates → Except RepositoryError (List MobileSite))
    (m : List (String × Coordinates)) (item : NearbyAddressRequestItem) :
    (match dict_get m item.id with
     | some coords => process_address_with_coords dist store item.id coords
     | none => empty_response item.id).id = item.id := by
  cases dict_get m item.id <;> rfl

/-- Without an orchestration fault, execute is the per-item map over the
batch, described through optional indexing. -/
lemma execute_getElem? (dist : ℚ → ℚ → ℚ → ℚ → ℚ)
    (svc : List (String × String) → Except Unit (List (String × Coordinates)))
    (store : Coordinates → Except RepositoryError (List MobileSite))
    (addresses : List NearbyAddressRequestItem) (i : ℕ) :
    (execute dist svc store false addresses)[i]? =
      (addresses[i]?).map (fun item =>
        match dict_get (execute_coordinates svc addresses) item.id with
        | some coords => process_address_with_coords dist store item.id coords
        | none => empty_response item.id) := by
  simp only [execute, Bool.false_eq_true, if_false, List.getElem?_map]

/-- Every iteration of the site loop raises AttributeError: the loop body
reads site.location.latitude, and Location has no such attribute. -/
lemma site_step_attribute_error (dist : ℚ → ℚ → ℚ → ℚ → ℚ)
    (latitude longitude : ℚ) (acc : CoverageByOperator) (site : MobileSite) :
    site_step dist latitude longitude acc site = .error .attributeError := by
  rcases site with ⟨op, loc, cov⟩
  cases op <;> rfl

/-- Converting the model built from a domain entity recovers the entity. -/
lemma to_entity_to_model (s : MobileSite) : to_entity (to_model s) = .ok s := by
  rcases s with ⟨op, ⟨x, y⟩, ⟨a, b, c⟩⟩
  cases op <;> rfl

/-- Round-tripping a whole batch of entities through their models
succeeds and recovers the batch. -/
lemma mapM_to_entity_to_model (sites : List MobileSite) :
    (sites.map to_model).mapM to_entity = .ok sites := by
  induction sites with
  | nil => rfl
  | cons s rest ih =>
    rw [List.map_cons, List.mapM_cons, to_entity_to_model s]
    rw [show ((do
      let b ← (Except.ok s : Except Unit MobileSite)
      let bs ← (rest.map to_model).mapM to_entity
      pure (b :: bs)) : Except Unit (List MobileSite)) =
        (do
          let bs ← (rest.map to_model).mapM to_entity
          pure (s :: bs)) from rfl]
    rw [ih]
    rfl

/-
  Claim theorems.
-/

/-- Claim C1: for every input batch, execute returns a list of the same
length whose i-th element carries the same id as the i-th input item, for
every distance function, geocoding outcome, store outcome, and with or
without an orchestration fault (the fault branch degrades the whole batch
to all-false results instead of raising). -/
theorem execute_batch_complete (dist : ℚ → ℚ → ℚ → ℚ → ℚ)
    (svc : List (String × String) → Except Unit (List (String × Coordinates)))
    (store : Coordinates → Except RepositoryError (List MobileSite))
    (orch_fault : Bool)
    (addresses : List NearbyAddressRequestItem) :
    (execute dist svc store orch_fault addresses).length = addresses.length ∧
    (execute dist svc store orch_fault addresses).map NearbyAddressResponseItem.id
      = addresses.map NearbyAddressRequestItem.id := by
  have h : (execute dist svc store orch_fault addresses).map NearbyAddressResponseItem.id
      = addresses.map NearbyAddressRequestItem.id := by
    cases orch_fault with
    | false =>
      simp only [execute, Bool.false_eq_true, if_false, List.map_map]
      exact List.map_congr_left (fun item _ =>
        execute_item_id dist store (execute_coordinates svc addresses) item)
    | true =>
      simp only [execute, if_true, List.map_map]
      exact List.map_congr_left (fun item _ => rfl)
  refine ⟨?_, h⟩
  have := congrArg List.length h
  simpa using this

/-- Claim C2, evaluated against the code: the resolver never reports any
coverage at all. For every distance function, every query point and every
site list returned by the 30 km store query, find_coverage_for_location
returns the all-false dictionary, because the loop body reads
site.location.latitude on a Location that only has fields x and y, and the
resulting AttributeError is swallowed into empty coverage. In particular
a 2G and 3G site 12 km away yields false for 2G as well, against the
claim. -/
theorem find_coverage_for_location_always_empty (dist : ℚ → ℚ → ℚ → ℚ → ℚ)
    (sites : List MobileSite) (latitude longitude : ℚ) :
    find_coverage_for_location dist (.ok sites) latitude longitude
      = initial_coverage_by_operator := by
  cases sites with
  | nil => rfl
  | cons site rest =>
    have h := site_step_attribute_error dist latitude longitude initial_coverage_by_operator site
    simp only [find_coverage_for_location, coverage_loop, h]

/-- Claim C3, evaluated against the code: the monotone OR-aggregation
example fails. Two same-operator sites, one supporting 2G and 3G and one
supporting 4G, both within every radius (the distance function returns 3
km), aggregate to the all-false dictionary instead of all three
technologies true, because the site loop dies with AttributeError on its
first iteration. -/
theorem coverage_aggregation_example_all_false :
    find_coverage_for_location (fun _ _ _ _ => 3)
        (.ok [⟨.orange, ⟨23522/10000, 488566/10000⟩, ⟨true, true, false⟩⟩,
              ⟨.orange, ⟨23523/10000, 488567/10000⟩, ⟨false, false, true⟩⟩])
        (488566/10000) (23522/10000)
      = initial_coverage_by_operator ∧
    initial_coverage_by_operator.orange = ⟨false, false, false⟩ :=
  ⟨rfl, rfl⟩

/-- Claim C4: a query whose id is absent from the coordinate map produced
by geocoding yields the all-false response for all four operators, and the
site store plays no role in that item: its result is the same under any
two store oracles. -/
theorem execute_missing_coordinate_empty (dist : ℚ → ℚ → ℚ → ℚ → ℚ)
    (svc : List (String × String) → Except Unit (List (String × Coordinates)))
    (store store' : Coordinates → Except RepositoryError (List MobileSite))
    (addresses : List NearbyAddressRequestItem) (i : ℕ)
    (q : NearbyAddressRequestItem)
    (hq : addresses[i]? = some q)
    (hnone : dict_get (execute_coordinates svc addresses) q.id = none) :
    (execute dist svc store false addresses)[i]? = some (empty_response q.id) ∧
    (execute dist svc store false addresses)[i]?
      = (execute dist svc store' false addresses)[i]? := by
  have h : ∀ s : Coordinates → Except RepositoryError (List MobileSite),
      (execute dist svc s false addresses)[i]? = some (empty_response q.id) := by
    intro s
    rw [execute_getElem? dist svc s addresses i, hq, Option.map_some']
    rw [hnone]
  exact ⟨h store, (h store).trans (h store').symm⟩

/-- Witness for C4 at a concrete one-item batch whose geocoding resolves
nothing. -/
theorem execute_missing_coordinate_empty_witness :
    (([⟨"a", "10 rue X"⟩] : List NearbyAddressRequestItem)[0]? = some ⟨"a", "10 rue X"⟩) ∧
    (dict_get (execute_coordinates (fun _ => .ok []) [⟨"a", "10 rue X"⟩]) "a" = none) ∧
    ((execute (fun _ _ _ _ => 0) (fun _ => .ok []) (fun _ => .ok []) false
        [⟨"a", "10 rue X"⟩])[0]? = some (empty_response "a") ∧
     (execute (fun _ _ _ _ => 0) (fun _ => .ok []) (fun _ => .ok []) false
        [⟨"a", "10 rue X"⟩])[0]?
       = (execute (fun _ _ _ _ => 0) (fun _ => .ok []) (fun _ => .error .mk) false
        [⟨"a", "10 rue X"⟩])[0]?) :=
  ⟨rfl, rfl,
    execute_missing_coordinate_empty (fun _ _ _ _ => 0) (fun _ => .ok [])
      (fun _ => .ok []) (fun _ => .error .mk) [⟨"a", "10 rue X"⟩] 0
      ⟨"a", "10 rue X"⟩ rfl rfl⟩

/-- Claim C5: if the store query fails for the coordinates of one address
of the batch, that address degrades to the all-false response, while every
other address's result only depends on the store at its own coordinates —
replacing the store by any store that agrees there (in particular one
where the failing address would not fail) leaves the sibling result
unchanged, and the batch is never aborted. -/
theorem execute_store_failure_isolated (dist : ℚ → ℚ → ℚ → ℚ → ℚ)
    (svc : List (String × String) → Except Unit (List (String × Coordinates)))
    (store : Coordinates → Except RepositoryError (List MobileSite))
    (addresses : List NearbyAddressRequestItem) (i : ℕ)
    (q : NearbyAddressRequestItem) (c : Coordinates)
    (hq : addresses[i]? = some q)
    (hc : dict_get (execute_coordinates svc addresses) q.id = some c)
    (he : store c = .error .mk) :
    (execute dist svc store false addresses)[i]? = some (empty_response q.id) ∧
    ∀ (j : ℕ) (q' : NearbyAddressRequestItem)
      (store' : Coordinates → Except RepositoryError (List MobileSite)),
      addresses[j]? = some q' →
      (∀ c', dict_get (execute_coordinates svc addresses) q'.id = some c' →
        store' c' = store c') →
      (execute dist svc store' false addresses)[j]?
        = (execute dist svc store false addresses)[j]? := by
  constructor
  · rw [execute_getElem? dist svc store addresses i, hq, Option.map_some']
    rw [hc]
    simp only [process_address_with_coords, find_coverage_for_location, he]
    rfl
  · intro j q' store' hq' hagree
    rw [execute_getElem? dist svc store addresses j,
      execute_getElem? dist svc store' addresses j, hq', Option.map_some',
      Option.map_some']
    cases hcj : dict_get (execute_coordinates svc addresses) q'.id with
    | none => rfl
    | some c' =>
      simp only [process_address_with_coords, hagree c' hcj]

/-- Witness for C5: a two-address batch where the store fails at the first
address's coordinates; the first result is all-false and the second is
unchanged under the repaired store that succeeds everywhere. -/
theorem execute_store_failure_isolated_witness :
    (([⟨"a", "x"⟩, ⟨"b", "y"⟩] : List NearbyAddressRequestItem)[0]? = some ⟨"a", "x"⟩) ∧
    (dict_get (execute_coordinates
        (fun _ => .ok [("a", ⟨1, 2⟩), ("b", ⟨3, 4⟩)]) [⟨"a", "x"⟩, ⟨"b", "y"⟩]) "a"
      = some ⟨1, 2⟩) ∧
    ((fun c : Coordinates =>
        if c = (⟨1, 2⟩ : Coordinates) then (.error .mk : Except RepositoryError (List MobileSite))
        else .ok []) ⟨1, 2⟩ = .error .mk) ∧
    ((execute (fun _ _ _ _ => 0) (fun _ => .ok [("a", ⟨1, 2⟩), ("b", ⟨3, 4⟩)])
        (fun c => if c = (⟨1, 2⟩ : Coordinates) then .error .mk else .ok [])
        false [⟨"a", "x"⟩, ⟨"b", "y"⟩])[0]? = some (empty_response "a")) ∧
    ((execute (fun _ _ _ _ => 0) (fun _ => .ok [("a", ⟨1, 2⟩), ("b", ⟨3, 4⟩)])
        (fun _ => .ok [])
        false [⟨"a", "x"⟩, ⟨"b", "y"⟩])[1]?
      = (execute (fun _ _ _ _ => 0) (fun _ => .ok [("a", ⟨1, 2⟩), ("b", ⟨3, 4⟩)])
        (fun c => if c = (⟨1, 2⟩ : Coordinates) then .error .mk else .ok [])
        false [⟨"a", "x"⟩, ⟨"b", "y"⟩])[1]?) := by
  have h := execute_store_failure_isolated (fun _ _ _ _ => 0)
    (fun _ => .ok [("a", ⟨1, 2⟩), ("b", ⟨3, 4⟩)])
    (fun c => if c = (⟨1, 2⟩ : Coordinates) then .error .mk else .ok [])
    [⟨"a", "x"⟩, ⟨"b", "y"⟩] 0 ⟨"a", "x"⟩ ⟨1, 2⟩ rfl rfl (by norm_num)
  refine ⟨rfl, rfl, by norm_num, h.1, ?_⟩
  refine h.2 1 ⟨"b", "y"⟩ (fun _ => .ok []) rfl ?_
  intro c' hc'
  have h2 : some (⟨3, 4⟩ : Coordinates) = some c' := hc'
  have h3 : (⟨3, 4⟩ : Coordinates) = c' := by injection h2
  rw [← h3]
  norm_num

/-- Claim C6 counterexample: with a result set of two in-radius records,
one of them carrying an operator string outside the four known operators,
find_nearby succeeds and silently returns only the convertible record — a
proper subset of the matching records without any failure. -/
theorem find_nearby_silent_partial_result :
    find_nearby (.ok [⟨"Orange", 1, 2, true, true, true⟩,
        ⟨"Bogus", 3, 4, true, false, false⟩])
      = .ok [⟨.orange, ⟨1, 2⟩, ⟨true, true, true⟩⟩] ∧
    (find_nearby (.ok [⟨"Orange", 1, 2, true, true, true⟩,
        ⟨"Bogus", 3, 4, true, false, false⟩])).isOk = true ∧
    ([(⟨.orange, ⟨1, 2⟩, ⟨true, true, true⟩⟩ : MobileSite)].length <
      [(⟨"Orange", 1, 2, true, true, true⟩ : MobileSiteModel),
       ⟨"Bogus", 3, 4, true, false, false⟩].length) :=
  ⟨rfl, rfl, by decide⟩

/-- Claim C6 amended: find_nearby fails with RepositoryError on an
underlying storage fault; on success it returns an entity for every
yielded record that converts to a domain entity — every convertible record
appears in the result and every result entity comes from a yielded record
— while a record whose conversion fails (unknown operator string) is
silently skipped rather than failing the call. -/
theorem find_nearby_amended (models : List MobileSiteModel) :
    find_nearby (.error .mk) = .error .mk ∧
    ∃ l, find_nearby (.ok models) = .ok l ∧
      (∀ m ∈ models, ∀ s, to_entity m = .ok s → s ∈ l) ∧
      (∀ s ∈ l, ∃ m ∈ models, to_entity m = .ok s) := by
  refine ⟨rfl, models.filterMap (fun m => (to_entity m).toOption), rfl, ?_, ?_⟩
  · intro m hm s hs
    rw [List.mem_filterMap]
    exact ⟨m, hm, by rw [hs]; rfl⟩
  · intro s hs
    rw [List.mem_filterMap] at hs
    obtain ⟨m, hm, h⟩ := hs
    refine ⟨m, hm, ?_⟩
    cases hto : to_entity m with
    | error e => rw [hto] at h; exact nomatch h
    | ok s' =>
      rw [hto] at h
      have : some s' = some s := h
      rw [← Option.some_inj.mp this]

/-- Witness for the amended C6 at a one-record convertible batch. -/
theorem find_nearby_amended_witness :
    to_entity ⟨"Orange", 1, 2, true, false, false⟩
      = .ok ⟨.orange, ⟨1, 2⟩, ⟨true, false, false⟩⟩ ∧
    ∃ l, find_nearby (.ok [⟨"Orange", 1, 2, true, false, false⟩]) = .ok l ∧
      (⟨.orange, ⟨1, 2⟩, ⟨true, false, false⟩⟩ : MobileSite) ∈ l := by
  refine ⟨rfl, ?_⟩
  obtain ⟨-, l, hl, hall, -⟩ := find_nearby_amended [⟨"Orange", 1, 2, true, false, false⟩]
  exact ⟨l, hl, hall ⟨"Orange", 1, 2, true, false, false⟩ (by simp)
    ⟨.orange, ⟨1, 2⟩, ⟨true, false, false⟩⟩ rfl⟩

/-- Claim C7: save_many is atomic over the modelled session state. On a
successful commit every site of the batch is appended to the store and the
saved entities are returned unchanged; on any underlying storage fault the
session state is rolled back unchanged and RepositoryError propagates to
the caller. -/
theorem save_many_atomic (db : List MobileSiteModel) (sites : List MobileSite) :
    save_many (.ok ()) db sites = (.ok sites, db ++ sites.map to_model) ∧
    save_many (.error .mk) db sites = (.error .mk, db) := by
  constructor
  · simp only [save_many, mapM_to_entity_to_model]
  · rfl

/-- Claim C10: the public endpoint rejects the empty batch with HTTP 400
before the use case runs — for every distance function, geocoding service,
store and fault flag it fails with 400 and never returns any result list,
empty or otherwise. -/
theorem route_rejects_empty_batch (dist : ℚ → ℚ → ℚ → ℚ → ℚ)
    (svc : List (String × String) → Except Unit (List (String × Coordinates)))
    (store : Coordinates → Except RepositoryError (List MobileSite))
    (orch_fault : Bool) :
    find_nearby_sites_by_address dist svc store orch_fault [] = .error 400 ∧
    ∀ l, find_nearby_sites_by_address dist svc store orch_fault [] ≠ .ok l :=
  ⟨rfl, fun _ h => nomatch h⟩

/-- Witness for C10 at concrete oracles. -/
theorem route_rejects_empty_batch_witness :
    find_nearby_sites_by_address (fun _ _ _ _ => 0) (fun _ => .ok [])
        (fun _ => .ok []) false [] = .error 400 ∧
    find_nearby_sites_by_address (fun _ _ _ _ => 0) (fun _ => .ok [])
        (fun _ => .ok []) false [] ≠ .ok [] :=
  ⟨(route_rejects_empty_batch (fun _ _ _ _ => 0) (fun _ => .ok [])
      (fun _ => .ok []) false).1,
   (route_rejects_empty_batch (fun _ _ _ _ => 0) (fun _ => .ok [])
      (fun _ => .ok []) false).2 []⟩

/-- Claim C8: per-address geocoding never escalates. A failed lookup, a
response with no feature list, and a first feature with fewer than two
coordinate components all resolve to none; a response whose first feature
has at least two coordinate components is accepted whatever its confidence
score; a none resolution only omits that id from the batch result, and
entries of other ids are unaffected by how the lookups of the omitted id
behave. -/
theorem geocode_omission_policy :
    geocode_single_address (.error ()) = none ∧
    geocode_single_address (.ok ⟨[]⟩) = none ∧
    (∀ score rest, geocode_single_address (.ok ⟨⟨[], score⟩ :: rest⟩) = none) ∧
    (∀ c score rest, geocode_single_address (.ok ⟨⟨[c], score⟩ :: rest⟩) = none) ∧
    (∀ lon lat more score rest,
      geocode_single_address (.ok ⟨⟨lon :: lat :: more, score⟩ :: rest⟩)
        = some ⟨lat, lon⟩) ∧
    (∀ (responses : String → Except Unit GeoResponse)
       (addresses : List (String × String)) (key : String) (c : Coordinates),
      geocode_single_address (responses key) = none →
      (key, c) ∉ geocode_addresses responses addresses) ∧
    (∀ (responses responses' : String → Except Unit GeoResponse)
       (addresses : List (String × String)) (key : String),
      (∀ s, s ≠ key → responses s = responses' s) →
      ∀ p : String × Coordinates, p.1 ≠ key →
        (p ∈ geocode_addresses responses addresses ↔
         p ∈ geocode_addresses responses' addresses)) := by
  refine ⟨rfl, rfl, fun _ _ => rfl, fun _ _ _ => rfl, fun _ _ _ _ _ => rfl, ?_, ?_⟩
  · intro responses addresses key c hnone hmem
    simp only [geocode_addresses, List.mem_filterMap] at hmem
    obtain ⟨q, hq, hmap⟩ := hmem
    cases hgeo : geocode_single_address (responses q.1) with
    | none => rw [hgeo] at hmap; simp at hmap
    | some c' =>
      rw [hgeo] at hmap
      have h1 : (q.1, c') = (key, c) := Option.some_inj.mp (by simpa using hmap)
      have hk : q.1 = key := congrArg Prod.fst h1
      rw [hk, hnone] at hgeo
      exact Option.noConfusion hgeo
  · intro responses responses' addresses key hagree p hne
    suffices h : ∀ (r r' : String → Except Unit GeoResponse),
        (∀ s, s ≠ key → r s = r' s) →
        p ∈ geocode_addresses r addresses → p ∈ geocode_addresses r' addresses by
      exact ⟨h responses responses' hagree,
        h responses' responses (fun s hs => (hagree s hs).symm)⟩
    intro r r' hrr hmem
    simp only [geocode_addresses, List.mem_filterMap] at hmem ⊢
    obtain ⟨q, hq, hmap⟩ := hmem
    refine ⟨q, hq, ?_⟩
    cases hgeo : geocode_single_address (r q.1) with
    | none => rw [hgeo] at hmap; simp at hmap
    | some c' =>
      rw [hgeo] at hmap
      have hp : (q.1, c') = p := Option.some_inj.mp (by simpa using hmap)
      have hqk : q.1 ≠ key := by
        have h1 : q.1 = p.1 := congrArg Prod.fst hp.symm |>.symm
        rw [h1]
        exact hne
      rw [← hrr q.1 hqk, hgeo]
      exact congrArg some hp

/-- Witness for C8: an id whose lookup fails is omitted from the batch
result while an id resolved from a well-formed response keeps its entry
whether or not the failing id's lookup is repaired. -/
theorem geocode_omission_policy_witness :
    (geocode_single_address ((fun s => if s = "bad" then .error ()
        else .ok ⟨[⟨[1, 2], 1/2⟩]⟩) "bad") = none) ∧
    (("bad", (⟨5, 6⟩ : Coordinates)) ∉ geocode_addresses
      (fun s => if s = "bad" then .error () else .ok ⟨[⟨[1, 2], 1/2⟩]⟩)
      [("bad", "addr1"), ("good", "addr2")]) ∧
    (("good", (⟨2, 1⟩ : Coordinates)) ∈ geocode_addresses
        (fun s => if s = "bad" then .error () else .ok ⟨[⟨[1, 2], 1/2⟩]⟩)
        [("bad", "addr1"), ("good", "addr2")] ↔
     ("good", (⟨2, 1⟩ : Coordinates)) ∈ geocode_addresses
        (fun _ => .ok ⟨[⟨[1, 2], 1/2⟩]⟩)
        [("bad", "addr1"), ("good", "addr2")]) := by
  refine ⟨rfl, ?_, ?_⟩
  · exact geocode_omission_policy.2.2.2.2.2.1
      (fun s => if s = "bad" then .error () else .ok ⟨[⟨[1, 2], 1/2⟩]⟩)
      [("bad", "addr1"), ("good", "addr2")] "bad" ⟨5, 6⟩ rfl
  · exact geocode_omission_policy.2.2.2.2.2.2
      (fun s => if s = "bad" then .error () else .ok ⟨[⟨[1, 2], 1/2⟩]⟩)
      (fun _ => .ok ⟨[⟨[1, 2], 1/2⟩]⟩)
      [("bad", "addr1"), ("good", "addr2")] "bad"
      (fun s hs => by simp [hs]) ("good", ⟨2, 1⟩) (by decide)

end NetworkCoverage
